import Mathlib

/-!
Verification of the counterparty risk analysis engine.

This file gives a shallow embedding of the risk-derivation and aggregation
engine (`src/data_processor.py` and `src/counterparty_analyzer.py`) and
proves, or refutes, the frozen specification claims about it.

Modelling conventions:
* Floating point numbers are modelled by exact rationals `ℚ`.
* A possibly-missing float (pandas `NaN`, produced by `Series.map` on an
  unmapped key) is modelled by `Option ℚ` with `none` playing the role of
  `NaN`: arithmetic propagates `none` and every ordering comparison against
  `none` is `false`, exactly as IEEE comparisons against `NaN` are.
* pandas `Series.mean` / `Series.max` skip missing values (`skipna=True`
  default) and return `NaN` on an all-missing series; `nanMean` / `nanMax`
  mirror that.
* Python string comparison is code-point lexicographic; `strLt` implements
  it directly on the character lists.
-/

/- Batteries marks the rational-number arithmetic irreducible; make it
semireducible again so that concrete witness computations reduce. -/
attribute [local semireducible] Rat.add Rat.mul Rat.inv Rat.sub

/-- Comparison of a possibly-missing value with a constant, `a ≤ b`:
`none` (NaN) compares false, as in IEEE float comparisons. -/
def nle (a : Option ℚ) (b : ℚ) : Bool :=
  match a with
  | some x => decide (x ≤ b)
  | none => false

/-- Comparison of a possibly-missing value with a constant, `a > b`:
`none` (NaN) compares false, as in IEEE float comparisons. -/
def ngt (a : Option ℚ) (b : ℚ) : Bool :=
  match a with
  | some x => decide (b < x)
  | none => false

/-- pandas `Series.clip(upper=u)` on a scalar. -/
def clipUpper (x u : ℚ) : ℚ := min x u

/-- pandas mean with `skipna=True`: mean of the present values, `NaN`
(here `none`) if none are present. -/
def nanMean (l : List (Option ℚ)) : Option ℚ :=
  let vs := l.reduceOption
  if vs.isEmpty then none else some (vs.sum / (vs.length : ℚ))

/-- pandas max with `skipna=True`: max of the present values, `NaN`
(here `none`) if none are present. -/
def nanMax (l : List (Option ℚ)) : Option ℚ :=
  match l.reduceOption with
  | [] => none
  | x :: xs => some (xs.foldl max x)

/-- Code-point lexicographic strict order on character lists, as Python
compares strings. -/
def chListLt : List Char → List Char → Bool
  | [], [] => false
  | [], _ :: _ => true
  | _ :: _, [] => false
  | a :: as, b :: bs => if a < b then true else if b < a then false else chListLt as bs

/-- Python `a < b` on strings. -/
def strLt (a b : String) : Bool := chListLt a.data b.data

/-- Python `a >= b` on strings (total order, so `¬ a < b`). -/
def strGe (a b : String) : Bool := !(strLt a b)

/-- Python `a <= b` on strings. -/
def strLe (a b : String) : Bool := !(strLt b a)

/-- Insert into a list respecting a boolean "may go before" test
(insertion step of a stable insertion sort). -/
def insertOrd (le : α → α → Bool) (a : α) : List α → List α
  | [] => [a]
  | b :: bs => if le a b then a :: b :: bs else b :: insertOrd le a bs

/-- Stable insertion sort by a boolean "may go before" test. -/
def sortOrd (le : α → α → Bool) (l : List α) : List α :=
  l.foldr (insertOrd le) []

/-- One input trade record, after the loader's cleaning stage (dates
parsed, numeric nulls filled with 0).  Fields are the columns the risk
engine reads; 0/1 integer flag columns are carried as rationals, as the
code does arithmetic on them. -/
structure Trade where
  counterparty_type : String
  counterparty_rating : String
  currency : String
  jurisdiction : String
  term_type : String
  collateral_hqla_level : String
  notional_musd : ℚ
  haircut_pct : ℚ
  repo_rate_pct : ℚ
  specialness_bp : ℚ
  collateral_liquidity_score : ℚ
  collateral_price_vol_20d_pct : ℚ
  collateral_duration_years : ℚ
  encumbrance_days : ℚ
  margin_call_mild_musd : ℚ
  margin_call_severe_musd : ℚ
  wrong_way_risk_flag : ℚ
  cross_ccy_flag : ℚ
  ccp_cleared_flag : ℚ
  days_to_maturity : ℚ
deriving DecidableEq

/-- The risk-threshold configuration, flattened from the nested YAML
mapping read by `RepoDataProcessor._load_config`; field names keep the
leaf key names of the YAML shape the code indexes into. -/
structure Config where
  rating_weights : List (String × ℚ)
  high_risk_rating_threshold : String
  max_haircut_pct : ℚ
  max_specialness_bp : ℚ
  max_encumbrance_days : ℚ
  max_mild_margin_call_musd : ℚ
  max_severe_margin_call_musd : ℚ
  max_term_days : ℚ
  mild_stress : ℚ
  severe_stress : ℚ
  weight_credit_risk : ℚ
  weight_market_risk : ℚ
  weight_liquidity_risk : ℚ
  weight_operational_risk : ℚ
  weight_term_risk : ℚ
  low_risk : ℚ
  medium_risk : ℚ
  high_risk : ℚ
  critical_risk : ℚ
  single_counterparty_limit_pct : ℚ
deriving DecidableEq

/-- The columns `RepoDataProcessor.derive_risk_fields` appends to a trade
row.  Credit-risk derived columns are `Option ℚ` because
`Series.map(rating_weights)` produces `NaN` on an unmapped rating and that
`NaN` propagates into every column computed from it. -/
structure Row where
  trade : Trade
  rating_risk_weight : Option ℚ
  credit_risk_score : Option ℚ
  high_risk_rating_flag : Bool
  credit_adjusted_exposure : Option ℚ
  collateral_quality_score : ℚ
  haircut_risk_score : ℚ
  specialness_risk_score : ℚ
  market_risk_score : ℚ
  encumbrance_risk_score : ℚ
  margin_call_risk_score : ℚ
  liquidity_risk_score : ℚ
  wrong_way_risk_score : ℚ
  cross_currency_risk_score : ℚ
  ccp_clearing_risk_score : ℚ
  operational_risk_score : ℚ
  maturity_risk_score : ℚ
  open_repo_risk_score : ℚ
  term_risk_score : ℚ
  mild_stress_exposure : ℚ
  severe_stress_exposure : ℚ
  mild_stress_risk_score : Option ℚ
  severe_stress_risk_score : Option ℚ
  composite_risk_score : Option ℚ
  risk_category : String
deriving DecidableEq

/-- Embeds `_derive_credit_risk_fields` line 147: pandas
`Series.map(rating_weights)` — a dictionary lookup that yields `NaN`
(`none`) on a key absent from the table, it does not raise. -/
def ratingRiskWeight (cfg : Config) (t : Trade) : Option ℚ :=
  cfg.rating_weights.lookup t.counterparty_rating

/-- Embeds `_derive_credit_risk_fields` line 150:
`credit_risk_score = rating_risk_weight / 100`. -/
def creditRiskScore (cfg : Config) (t : Trade) : Option ℚ :=
  (ratingRiskWeight cfg t).map (fun w => w / 100)

/-- Embeds `_derive_credit_risk_fields` lines 153-156: the pandas string
comparison `counterparty_rating >= high_risk_rating_threshold`, which is
code-point lexicographic. -/
def highRiskRatingFlag (cfg : Config) (t : Trade) : Bool :=
  strGe t.counterparty_rating cfg.high_risk_rating_threshold

/-- Embeds `_derive_credit_risk_fields` lines 159-161:
`credit_adjusted_exposure = notional_musd * (1 + credit_risk_score)`. -/
def creditAdjustedExposure (cfg : Config) (t : Trade) : Option ℚ :=
  (creditRiskScore cfg t).map (fun s => t.notional_musd * (1 + s))

/-- Embeds `_derive_market_risk_fields` lines 166-170. -/
def collateralQualityScore (t : Trade) : ℚ :=
  t.collateral_liquidity_score * (4/10) +
  (1 - t.collateral_price_vol_20d_pct / 100) * (3/10) +
  (if t.collateral_duration_years ≤ 5 then 1 else 0) * (3/10)

/-- Embeds `_derive_market_risk_fields` lines 173-174. -/
def haircutRiskScore (cfg : Config) (t : Trade) : ℚ :=
  t.haircut_pct / cfg.max_haircut_pct

/-- Embeds `_derive_market_risk_fields` lines 177-178. -/
def specialnessRiskScore (cfg : Config) (t : Trade) : ℚ :=
  t.specialness_bp / cfg.max_specialness_bp

/-- Embeds `_derive_market_risk_fields` lines 181-185. -/
def marketRiskScore (cfg : Config) (t : Trade) : ℚ :=
  (1 - collateralQualityScore t) * (4/10) +
  haircutRiskScore cfg t * (3/10) +
  specialnessRiskScore cfg t * (3/10)

/-- Embeds `_derive_liquidity_risk_fields` lines 190-193. -/
def encumbranceRiskScore (cfg : Config) (t : Trade) : ℚ :=
  clipUpper (t.encumbrance_days / cfg.max_encumbrance_days) 1

/-- Embeds `_derive_liquidity_risk_fields` lines 196-202: the clip to 1.0
is applied to the sum of the two halves. -/
def marginCallRiskScore (cfg : Config) (t : Trade) : ℚ :=
  clipUpper
    (t.margin_call_mild_musd / cfg.max_mild_margin_call_musd * (5/10) +
     t.margin_call_severe_musd / cfg.max_severe_margin_call_musd * (5/10)) 1

/-- Embeds `_derive_liquidity_risk_fields` lines 205-208. -/
def liquidityRiskScore (cfg : Config) (t : Trade) : ℚ :=
  encumbranceRiskScore cfg t * (6/10) + marginCallRiskScore cfg t * (4/10)

/-- Embeds `_derive_operational_risk_fields` lines 213-226. -/
def operationalRiskScore (t : Trade) : ℚ :=
  t.wrong_way_risk_flag * (4/10) +
  t.cross_ccy_flag * (3/10) +
  (1 - t.ccp_cleared_flag) * (3/10)

/-- Embeds `_derive_term_risk_fields` lines 231-234. -/
def maturityRiskScore (cfg : Config) (t : Trade) : ℚ :=
  clipUpper (t.days_to_maturity / cfg.max_term_days) 1

/-- Embeds `_derive_term_risk_fields` lines 237-239. -/
def openRepoRiskScore (t : Trade) : ℚ :=
  if t.term_type = "Open" then 1 else 0

/-- Embeds `_derive_term_risk_fields` lines 242-245. -/
def termRiskScore (cfg : Config) (t : Trade) : ℚ :=
  maturityRiskScore cfg t * (7/10) + openRepoRiskScore t * (3/10)

/-- Embeds `_calculate_composite_risk_score` lines 273-279: the weighted
sum of the five dimension scores; `NaN` in the credit term propagates. -/
def compositeRiskScore (cfg : Config) (t : Trade) : Option ℚ :=
  (creditRiskScore cfg t).map (fun c =>
    c * cfg.weight_credit_risk +
    marketRiskScore cfg t * cfg.weight_market_risk +
    liquidityRiskScore cfg t * cfg.weight_liquidity_risk +
    operationalRiskScore t * cfg.weight_operational_risk +
    termRiskScore cfg t * cfg.weight_term_risk)

/-- Embeds `assign_risk_category` lines 284-292: walk the thresholds in
the order low, medium, high with `score <= threshold`; a `NaN` score fails
every comparison and falls through to "Critical". -/
def assignRiskCategory (cfg : Config) (score : Option ℚ) : String :=
  if nle score cfg.low_risk then "Low"
  else if nle score cfg.medium_risk then "Medium"
  else if nle score cfg.high_risk then "High"
  else "Critical"

/-- Embeds one row of `derive_risk_fields`: every derived column of
`RepoDataProcessor` for a single trade (the pandas code computes the
columns vectorised, one value per row, with no cross-row dependency). -/
def deriveRow (cfg : Config) (t : Trade) : Row :=
  { trade := t
    rating_risk_weight := ratingRiskWeight cfg t
    credit_risk_score := creditRiskScore cfg t
    high_risk_rating_flag := highRiskRatingFlag cfg t
    credit_adjusted_exposure := creditAdjustedExposure cfg t
    collateral_quality_score := collateralQualityScore t
    haircut_risk_score := haircutRiskScore cfg t
    specialness_risk_score := specialnessRiskScore cfg t
    market_risk_score := marketRiskScore cfg t
    encumbrance_risk_score := encumbranceRiskScore cfg t
    margin_call_risk_score := marginCallRiskScore cfg t
    liquidity_risk_score := liquidityRiskScore cfg t
    wrong_way_risk_score := t.wrong_way_risk_flag
    cross_currency_risk_score := t.cross_ccy_flag
    ccp_clearing_risk_score := 1 - t.ccp_cleared_flag
    operational_risk_score := operationalRiskScore t
    maturity_risk_score := maturityRiskScore cfg t
    open_repo_risk_score := openRepoRiskScore t
    term_risk_score := termRiskScore cfg t
    mild_stress_exposure := t.notional_musd * cfg.mild_stress
    severe_stress_exposure := t.notional_musd * cfg.severe_stress
    mild_stress_risk_score :=
      (creditRiskScore cfg t).map (fun s => clipUpper (s * cfg.mild_stress) 1)
    severe_stress_risk_score :=
      (creditRiskScore cfg t).map (fun s => clipUpper (s * cfg.severe_stress) 1)
    composite_risk_score := compositeRiskScore cfg t
    risk_category := assignRiskCategory cfg (compositeRiskScore cfg t) }

/-- Embeds `derive_risk_fields`: derive the extra columns for every row. -/
def deriveRiskFields (cfg : Config) (ts : List Trade) : List Row :=
  ts.map (deriveRow cfg)

/-- pandas `Series.mode()` followed by `.iloc[0]`: the most frequent value,
ties broken by the smallest value (mode returns its result sorted), with the
code's `'Medium'` fallback for an empty series. -/
def modeFirst (l : List String) : String :=
  match l.dedup with
  | [] => "Medium"
  | v :: vs =>
      vs.foldl (fun best c =>
        if l.count best < l.count c ∨ (l.count c = l.count best ∧ strLt c best) then c
        else best) v

/-- pandas `value_counts().to_dict()`: occurrence count per distinct value,
keyed in first-appearance order (the dict order is irrelevant downstream). -/
def valueCounts (l : List String) : List (String × Nat) :=
  l.dedup.map (fun v => (v, l.count v))

/-- Sum of the `notional_musd` column of a list of rows. -/
def totalNotional (l : List Row) : ℚ :=
  (l.map (fun r => r.trade.notional_musd)).sum

/-- The mirror of the `CounterpartyRiskProfile` dataclass.  Mean and max
columns are `Option ℚ` since the group statistics of an all-`NaN` column
are `NaN`. -/
structure Profile where
  counterparty_type : String
  total_exposure : ℚ
  trade_count : Nat
  average_risk_score : Option ℚ
  max_risk_score : Option ℚ
  risk_category : String
  credit_risk_score : Option ℚ
  market_risk_score : Option ℚ
  liquidity_risk_score : Option ℚ
  operational_risk_score : Option ℚ
  term_risk_score : Option ℚ
  concentration_ratio_pct : ℚ
  high_risk_trades : Nat
  critical_risk_trades : Nat
  risk_flags : List String
deriving DecidableEq

/-- Embeds `_generate_counterparty_risk_flags` (lines 153-193): one flag
per satisfied condition, in the source's evaluation order.  `cr` is the
concentration ratio value the caller passes in — at the only call site
that is the group-local placeholder ratio of `_create_counterparty_profile`. -/
def generateCounterpartyRiskFlags (cfg : Config) (g : List Row) (cr : ℚ) :
    List String :=
  (if g.any (fun r => r.high_risk_rating_flag) then ["HIGH_RISK_RATING"] else []) ++
  (if ngt (nanMean (g.map (fun r => r.credit_risk_score))) (7/10) then ["HIGH_CREDIT_RISK"] else []) ++
  (if ngt (nanMean (g.map (fun r => some r.haircut_risk_score))) (8/10) then ["HIGH_HAIRCUT_RISK"] else []) ++
  (if ngt (nanMean (g.map (fun r => some r.specialness_risk_score))) (8/10) then ["HIGH_SPECIALNESS_RISK"] else []) ++
  (if ngt (nanMean (g.map (fun r => some r.encumbrance_risk_score))) (8/10) then ["HIGH_ENCUMBRANCE_RISK"] else []) ++
  (if ngt (nanMean (g.map (fun r => some r.margin_call_risk_score))) (8/10) then ["HIGH_MARGIN_CALL_RISK"] else []) ++
  (if g.any (fun r => r.trade.wrong_way_risk_flag ≠ 0) then ["WRONG_WAY_RISK"] else []) ++
  (if g.any (fun r => r.trade.cross_ccy_flag ≠ 0) then ["CROSS_CURRENCY_RISK"] else []) ++
  (if cfg.single_counterparty_limit_pct < cr then ["HIGH_CONCENTRATION"] else []) ++
  (if ngt (nanMean (g.map (fun r => some r.term_risk_score))) (8/10) then ["HIGH_TERM_RISK"] else [])

/-- The group-local concentration ratio of `_create_counterparty_profile`
lines 107-108: group exposure over the group's own total — 100 whenever the
group total is positive, the recognised placeholder. -/
def placeholderConcentration (g : List Row) : ℚ :=
  if 0 < totalNotional g then totalNotional g / totalNotional g * 100 else 0

/-- Embeds `_create_counterparty_profile`: the per-group aggregation, with
the placeholder concentration ratio and the risk flags generated from it. -/
def createCounterpartyProfile (cfg : Config) (cp : String) (g : List Row) :
    Profile :=
  { counterparty_type := cp
    total_exposure := totalNotional g
    trade_count := g.length
    average_risk_score := nanMean (g.map (fun r => r.composite_risk_score))
    max_risk_score := nanMax (g.map (fun r => r.composite_risk_score))
    risk_category := modeFirst (g.map (fun r => r.risk_category))
    credit_risk_score := nanMean (g.map (fun r => r.credit_risk_score))
    market_risk_score := nanMean (g.map (fun r => some r.market_risk_score))
    liquidity_risk_score := nanMean (g.map (fun r => some r.liquidity_risk_score))
    operational_risk_score := nanMean (g.map (fun r => some r.operational_risk_score))
    term_risk_score := nanMean (g.map (fun r => some r.term_risk_score))
    concentration_ratio_pct := placeholderConcentration g
    high_risk_trades := g.countP (fun r => ngt r.composite_risk_score (7/10))
    critical_risk_trades := g.countP (fun r => ngt r.composite_risk_score (9/10))
    risk_flags := generateCounterpartyRiskFlags cfg g (placeholderConcentration g) }

/-- Embeds `_is_high_risk_counterparty`: `sum(risk_criteria) >= 3` over the
eight boolean criteria, in source order. -/
def isHighRiskCounterparty (cfg : Config) (p : Profile) : Bool :=
  let criteria : List Bool := [
    ngt p.average_risk_score cfg.high_risk,
    ngt p.max_risk_score cfg.critical_risk,
    decide (cfg.single_counterparty_limit_pct < p.concentration_ratio_pct),
    decide ((p.trade_count : ℚ) * (3/10) < (p.high_risk_trades : ℚ)),
    decide (0 < p.critical_risk_trades),
    ngt p.credit_risk_score (7/10),
    ngt p.market_risk_score (7/10),
    ngt p.liquidity_risk_score (7/10)]
  decide (3 ≤ criteria.count true)

/-- The sorted distinct `counterparty_type` keys, as `groupby` (with its
default `sort=True`) iterates them. -/
def groupKeys (data : List Row) : List String :=
  sortOrd strLe (data.map (fun r => r.trade.counterparty_type)).dedup

/-- The rows of one counterparty group. -/
def groupRows (data : List Row) (cp : String) : List Row :=
  data.filter (fun r => r.trade.counterparty_type == cp)

/-- Mirror of the concentration-metrics sub-record. -/
structure ConcentrationMetrics where
  top_5_concentration_pct : ℚ
  herfindahl_hirschman_index : ℚ
  largest_counterparty_pct : ℚ
  largest_counterparty : Option String
deriving DecidableEq

/-- Embeds `_calculate_concentration_metrics`: group exposures sorted
descending, top-5 share, HHI and largest share, each zero-guarded on the
total. -/
def calculateConcentrationMetrics (data : List Row) : ConcentrationMetrics :=
  let exposures :=
    sortOrd (fun a b => decide (b.2 ≤ a.2))
      ((groupKeys data).map (fun k => (k, totalNotional (groupRows data k))))
  let total := (exposures.map (fun e => e.2)).sum
  { top_5_concentration_pct :=
      if 0 < total then (((exposures.take 5).map (fun e => e.2)).sum / total) * 100 else 0
    herfindahl_hirschman_index :=
      if 0 < total then (exposures.map (fun e => (e.2 / total) ^ 2)).sum else 0
    largest_counterparty_pct :=
      if 0 < total then ((exposures.map (fun e => e.2)).headD 0 / total) * 100 else 0
    largest_counterparty := (exposures.map (fun e => e.1)).head? }

/-- Mirror of the `risk_aggregates` dictionary built by
`_calculate_portfolio_aggregates`. -/
structure PortfolioAggregates where
  total_portfolio_exposure : ℚ
  total_trades : Nat
  unique_counterparties : Nat
  portfolio_average_risk_score : Option ℚ
  portfolio_max_risk_score : Option ℚ
  high_risk_exposure : ℚ
  critical_risk_exposure : ℚ
  high_risk_exposure_pct : ℚ
  critical_risk_exposure_pct : ℚ
  risk_distribution : List (String × Nat)
  counterparty_concentration : ConcentrationMetrics
  collateral_quality_distribution : List (String × Nat)
  currency_distribution : List (String × Nat)
  jurisdiction_distribution : List (String × Nat)
deriving DecidableEq

/-- Embeds the dictionary part of `_calculate_portfolio_aggregates`
(lines 197-214). -/
def calculatePortfolioAggregates (data : List Row) : PortfolioAggregates :=
  let total := totalNotional data
  let highExp := totalNotional (data.filter (fun r => ngt r.composite_risk_score (7/10)))
  let critExp := totalNotional (data.filter (fun r => ngt r.composite_risk_score (9/10)))
  { total_portfolio_exposure := total
    total_trades := data.length
    unique_counterparties := (data.map (fun r => r.trade.counterparty_type)).dedup.length
    portfolio_average_risk_score := nanMean (data.map (fun r => r.composite_risk_score))
    portfolio_max_risk_score := nanMax (data.map (fun r => r.composite_risk_score))
    high_risk_exposure := highExp
    critical_risk_exposure := critExp
    high_risk_exposure_pct := if 0 < total then highExp / total * 100 else 0
    critical_risk_exposure_pct := if 0 < total then critExp / total * 100 else 0
    risk_distribution := valueCounts (data.map (fun r => r.risk_category))
    counterparty_concentration := calculateConcentrationMetrics data
    collateral_quality_distribution := valueCounts (data.map (fun r => r.trade.collateral_hqla_level))
    currency_distribution := valueCounts (data.map (fun r => r.trade.currency))
    jurisdiction_distribution := valueCounts (data.map (fun r => r.trade.jurisdiction)) }

/-- Embeds the back-fill loop of `_calculate_portfolio_aggregates`
(lines 217-218): overwrite each profile's concentration ratio with the
corrected share of the true portfolio total. -/
def backFillConcentration (total : ℚ) (p : Profile) : Profile :=
  { p with concentration_ratio_pct :=
      if 0 < total then p.total_exposure / total * 100 else 0 }

/-- Mirror of the portfolio-level flag dictionary of
`_generate_risk_flags`. -/
structure RiskFlagSet where
  critical_flags : List String
  high_flags : List String
  medium_flags : List String
  recommendations : List String
deriving DecidableEq

/-- Embeds `_generate_risk_flags` (lines 238-274): the fixed-order
threshold checks, each appending one flag and one recommendation. -/
def generatePortfolioRiskFlags (agg : PortfolioAggregates)
    (highRiskCount : Nat) : RiskFlagSet :=
  { critical_flags :=
      (if 10 < agg.critical_risk_exposure_pct then ["CRITICAL_RISK_EXPOSURE_HIGH"] else []) ++
      (if (25/100 : ℚ) < agg.counterparty_concentration.herfindahl_hirschman_index then
        ["HIGH_PORTFOLIO_CONCENTRATION"] else [])
    high_flags :=
      (if 25 < agg.high_risk_exposure_pct then ["HIGH_RISK_EXPOSURE_ELEVATED"] else []) ++
      (if 3 < highRiskCount then ["MULTIPLE_HIGH_RISK_COUNTERPARTIES"] else [])
    medium_flags :=
      (if ngt agg.portfolio_average_risk_score (5/10) then ["PORTFOLIO_RISK_SCORE_ELEVATED"] else []) ++
      (if 60 < agg.counterparty_concentration.top_5_concentration_pct then
        ["TOP_5_CONCENTRATION_HIGH"] else [])
    recommendations :=
      (if 10 < agg.critical_risk_exposure_pct then
        ["Immediately reduce exposure to critical risk trades"] else []) ++
      (if (25/100 : ℚ) < agg.counterparty_concentration.herfindahl_hirschman_index then
        ["Diversify counterparty exposure to reduce concentration risk"] else []) ++
      (if 25 < agg.high_risk_exposure_pct then
        ["Review and potentially reduce high-risk exposures"] else []) ++
      (if 3 < highRiskCount then
        ["Review risk management policies for high-risk counterparties"] else []) ++
      (if ngt agg.portfolio_average_risk_score (5/10) then
        ["Monitor portfolio risk levels and consider risk reduction strategies"] else []) ++
      (if 60 < agg.counterparty_concentration.top_5_concentration_pct then
        ["Consider diversifying away from top 5 counterparties"] else []) }

/-- Embeds `_determine_portfolio_risk_level` (lines 291-304). -/
def determinePortfolioRiskLevel (agg : PortfolioAggregates) : String :=
  if ngt agg.portfolio_average_risk_score (8/10) ∨ 15 < agg.critical_risk_exposure_pct then
    "CRITICAL"
  else if ngt agg.portfolio_average_risk_score (6/10) ∨ 30 < agg.high_risk_exposure_pct then
    "HIGH"
  else if ngt agg.portfolio_average_risk_score (4/10) ∨ 15 < agg.high_risk_exposure_pct then
    "MEDIUM"
  else
    "LOW"

/-- Mirror of the summary dictionary of `_generate_summary`; its
`analysis_date` is the wall-clock timestamp taken at reporting time. -/
structure Summary where
  analysis_date : String
  total_counterparties : Nat
  high_risk_counterparties : Nat
  portfolio_risk_level : String
  average_risk_score : Option ℚ
  high_risk_exposure_pct : ℚ
  critical_risk_exposure_pct : ℚ
  concentration_hhi : ℚ
deriving DecidableEq

/-- Mirror of the `analysis_results` dictionary returned by
`analyze_counterparties`. -/
structure AnalysisResults where
  counterparty_profiles : List (String × Profile)
  high_risk_counterparties : List String
  portfolio_aggregates : PortfolioAggregates
  risk_flags : RiskFlagSet
  summary : Summary
deriving DecidableEq

/-- Embeds `analyze_counterparties` for a freshly constructed analyzer
(as `main.py` and the test harness run it): per-group profiles in sorted
group order, the high-risk vote on the pre-back-fill profiles, the
portfolio aggregates with the in-place concentration-ratio back-fill, the
portfolio flag set, and the summary stamped with the wall-clock time
`now`. -/
def analyzeCounterparties (cfg : Config) (now : String) (data : List Row) :
    AnalysisResults :=
  let keys := groupKeys data
  let profiles0 := keys.map (fun k => (k, createCounterpartyProfile cfg k (groupRows data k)))
  let highRisk := (profiles0.filter (fun kp => isHighRiskCounterparty cfg kp.2)).map (fun kp => kp.1)
  let agg := calculatePortfolioAggregates data
  let total := totalNotional data
  let profiles := profiles0.map (fun kp => (kp.1, backFillConcentration total kp.2))
  let flags := generatePortfolioRiskFlags agg highRisk.length
  { counterparty_profiles := profiles
    high_risk_counterparties := highRisk
    portfolio_aggregates := agg
    risk_flags := flags
    summary :=
      { analysis_date := now
        total_counterparties := profiles.length
        high_risk_counterparties := highRisk.length
        portfolio_risk_level := determinePortfolioRiskLevel agg
        average_risk_score := agg.portfolio_average_risk_score
        high_risk_exposure_pct := agg.high_risk_exposure_pct
        critical_risk_exposure_pct := agg.critical_risk_exposure_pct
        concentration_hhi := agg.counterparty_concentration.herfindahl_hirschman_index } }

/-- The full pipeline as `main.py` wires it: derive the risk fields, then
analyze the counterparties, with fresh state for each run. -/
def runPipeline (cfg : Config) (now : String) (ts : List Trade) :
    AnalysisResults :=
  analyzeCounterparties cfg now (deriveRiskFields cfg ts)

/-- Modelled from the spec: the fixed rating-grade enumeration "AAA…D"
over which the spec orders ratings — the key order of the weight table,
from least to most risky. -/
def ratingGradeOrder : List String :=
  ["AAA", "AA", "A", "BBB", "BB", "B", "CCC", "CC", "C", "D"]

/-- Modelled from the spec: position of a rating in the fixed grade
enumeration. -/
def ratingGradeIdx (r : String) : Option Nat :=
  ratingGradeOrder.indexOf? r

/-- Modelled from the spec: "the ordinal rating is at or past a configured
threshold rating" under the total order of the rating-grade enumeration —
the comparison the spec requires for the high-risk rating flag. -/
def specHighRiskRating (r threshold : String) : Bool :=
  match ratingGradeIdx r, ratingGradeIdx threshold with
  | some i, some j => decide (j ≤ i)
  | _, _ => false

/-- A concrete configuration used for witnesses and counterexamples: the
default rating-weight table of `_get_default_config`, round maxima and the
evenly weighted composite of the spec's concrete scenario (§8). -/
def cfgA : Config :=
  { rating_weights :=
      [("AAA", 0), ("AA", 2/10), ("A", 5/10), ("BBB", 1), ("BB", 2),
       ("B", 3), ("CCC", 5), ("CC", 10), ("C", 15), ("D", 100)]
    high_risk_rating_threshold := "BB"
    max_haircut_pct := 10
    max_specialness_bp := 50
    max_encumbrance_days := 30
    max_mild_margin_call_musd := 10
    max_severe_margin_call_musd := 25
    max_term_days := 365
    mild_stress := 15/10
    severe_stress := 2
    weight_credit_risk := 2/10
    weight_market_risk := 2/10
    weight_liquidity_risk := 2/10
    weight_operational_risk := 2/10
    weight_term_risk := 2/10
    low_risk := 3/10
    medium_risk := 5/10
    high_risk := 7/10
    critical_risk := 9/10
    single_counterparty_limit_pct := 25 }

/-- A benign concrete trade; the fixtures below vary the fields a claim
needs. -/
def tradeBase : Trade :=
  { counterparty_type := "Bank"
    counterparty_rating := "AAA"
    currency := "USD"
    jurisdiction := "US"
    term_type := "Term"
    collateral_hqla_level := "L1"
    notional_musd := 10
    haircut_pct := 2
    repo_rate_pct := 1
    specialness_bp := 5
    collateral_liquidity_score := 9/10
    collateral_price_vol_20d_pct := 5
    collateral_duration_years := 3
    encumbrance_days := 10
    margin_call_mild_musd := 1
    margin_call_severe_musd := 2
    wrong_way_risk_flag := 0
    cross_ccy_flag := 0
    ccp_cleared_flag := 1
    days_to_maturity := 30 }


/-- A trade whose rating string "ZZ" is not a key of any weight table. -/
def tradeZZ : Trade := { tradeBase with counterparty_rating := "ZZ" }

/-- A trade of a counterparty holding 10 of a 100 notional portfolio. -/
def tradeCpA : Trade := { tradeBase with counterparty_type := "CpA" }

/-- A trade of a second counterparty holding the other 90. -/
def tradeCpB : Trade :=
  { tradeBase with counterparty_type := "CpB", notional_musd := 90 }

/-- The derived rows of the two-counterparty 10/90 portfolio. -/
def rowsAB : List Row := deriveRiskFields cfgA [tradeCpA, tradeCpB]

/-- The finalized profile the analysis produces for counterparty "CpA" of
the 10/90 portfolio. -/
def profileCpA : Profile :=
  backFillConcentration (totalNotional rowsAB)
    (createCounterpartyProfile cfgA "CpA" (groupRows rowsAB "CpA"))

/-- A trade with zero notional, spanning a zero-total portfolio. -/
def tradeZero : Trade :=
  { tradeBase with counterparty_type := "CpZ", notional_musd := 0 }

/-- A trade whose haircut exceeds the configured maximum haircut. -/
def tradeHaircut : Trade := { tradeBase with haircut_pct := 200 }

/-- A trade whose two margin-call ratios are each far above 1, so the
post-sum clamp and a per-half clamp give different results. -/
def tradeMargin : Trade :=
  { tradeBase with margin_call_mild_musd := 60, margin_call_severe_musd := 150 }

/-- The eight high-risk criteria of the classifier, as the specification
words them, indexed in the source's order: mean composite above the high
threshold, max composite above the critical threshold, concentration ratio
above the single-counterparty limit, high-risk trades above 30 percent of
trades, any critical-risk trade, and mean credit, market and liquidity
scores above 0.7 (a missing mean fails every comparison, as the code's
`NaN` floats do). -/
def highRiskCriteria (cfg : Config) (p : Profile) : Fin 8 → Bool := fun i =>
  match i with
  | ⟨0, _⟩ => ngt p.average_risk_score cfg.high_risk
  | ⟨1, _⟩ => ngt p.max_risk_score cfg.critical_risk
  | ⟨2, _⟩ => decide (cfg.single_counterparty_limit_pct < p.concentration_ratio_pct)
  | ⟨3, _⟩ => decide ((p.trade_count : ℚ) * (3/10) < (p.high_risk_trades : ℚ))
  | ⟨4, _⟩ => decide (0 < p.critical_risk_trades)
  | ⟨5, _⟩ => ngt p.credit_risk_score (7/10)
  | ⟨6, _⟩ => ngt p.market_risk_score (7/10)
  | ⟨7, _⟩ => ngt p.liquidity_risk_score (7/10)

/-- Severity rank of the four risk-category labels, for stating that the
category is a non-decreasing step function of the composite score. -/
def riskSeverity (c : String) : Nat :=
  if c = "Low" then 0 else if c = "Medium" then 1 else if c = "High" then 2 else 3
/-- Inserting with `insertOrd` is a permutation of consing. -/
theorem insertOrd_perm (le : α → α → Bool) (a : α) (l : List α) :
    (insertOrd le a l).Perm (a :: l) := by
  induction l with
  | nil => simp [insertOrd]
  | cons b bs ih =>
      unfold insertOrd
      split
      · exact List.Perm.refl _
      · exact (ih.cons b).trans (List.Perm.swap a b bs)

/-- The insertion sort is a permutation of its input. -/
theorem sortOrd_perm (le : α → α → Bool) (l : List α) :
    (sortOrd le l).Perm l := by
  induction l with
  | nil => exact List.Perm.refl _
  | cons a as ih =>
      exact (insertOrd_perm le a (sortOrd le as)).trans (ih.cons a)

/-- Splitting a mapped sum along a boolean filter. -/
theorem sum_filter_split (p : α → Bool) (f : α → ℚ) (l : List α) :
    ((l.filter p).map f).sum + ((l.filter (fun x => !(p x))).map f).sum =
      (l.map f).sum := by
  induction l with
  | nil => simp
  | cons a as ih =>
      by_cases h : p a = true
      · simp [h, add_assoc, ih]
      · simp only [Bool.not_eq_true] at h
        simp [h, ih]
        linarith [ih]

/-- Summing the group totals over a duplicate-free covering key list gives
the total of the whole data set. -/
theorem group_partition_sum (keys : List String) (l : List Row)
    (hnd : keys.Nodup)
    (hcov : ∀ r ∈ l, r.trade.counterparty_type ∈ keys) :
    (keys.map (fun k => totalNotional (groupRows l k))).sum = totalNotional l := by
  induction keys generalizing l with
  | nil =>
      match l with
      | [] => simp [totalNotional]
      | r :: rs => exact absurd (hcov r (by simp)) (by simp)
  | cons k ks ih =>
      have hknotin : k ∉ ks := (List.nodup_cons.mp hnd).1
      have hndks : ks.Nodup := (List.nodup_cons.mp hnd).2
      set l2 := l.filter (fun r => !(r.trade.counterparty_type == k)) with hl2
      have hgroups : ∀ k' ∈ ks, groupRows l k' = groupRows l2 k' := by
        intro k' hk'
        have hne : k' ≠ k := fun h => hknotin (h ▸ hk')
        unfold groupRows
        rw [hl2, List.filter_filter]
        apply List.filter_congr
        intro r _
        by_cases hr : r.trade.counterparty_type = k'
        · simp [hr, hne]
        · simp [hr]
      have hcov2 : ∀ r ∈ l2, r.trade.counterparty_type ∈ ks := by
        intro r hr
        rw [hl2] at hr
        have hmem := List.mem_filter.mp hr
        have := hcov r hmem.1
        simp only [List.mem_cons] at this
        rcases this with h | h
        · exfalso
          have := hmem.2
          simp [h] at this
        · exact h
      have hmapeq :
          ks.map (fun k' => totalNotional (groupRows l k')) =
            ks.map (fun k' => totalNotional (groupRows l2 k')) := by
        apply List.map_congr_left
        intro k' hk'
        rw [hgroups k' hk']
      calc (List.map (fun k' => totalNotional (groupRows l k')) (k :: ks)).sum
          = totalNotional (groupRows l k) +
              (ks.map (fun k' => totalNotional (groupRows l2 k'))).sum := by
            rw [List.map_cons, List.sum_cons, hmapeq]
        _ = totalNotional (groupRows l k) + totalNotional l2 := by
            rw [ih l2 hndks hcov2]
        _ = totalNotional l := by
            unfold totalNotional groupRows
            rw [hl2]
            exact sum_filter_split _ _ l

/-- The sorted distinct key list is duplicate-free and covers every row's
counterparty type. -/
theorem groupKeys_nodup_cover (data : List Row) :
    (groupKeys data).Nodup ∧
      ∀ r ∈ data, r.trade.counterparty_type ∈ groupKeys data := by
  constructor
  · exact ((sortOrd_perm strLe _).nodup_iff).mpr
      (List.nodup_dedup (data.map (fun r => r.trade.counterparty_type)))
  · intro r hr
    have : r.trade.counterparty_type ∈
        (data.map (fun r => r.trade.counterparty_type)).dedup := by
      rw [List.mem_dedup]
      exact List.mem_map_of_mem _ hr
    exact ((sortOrd_perm strLe _).mem_iff).mpr this

/-- The sum of all group exposures equals the portfolio total. -/
theorem groupKeys_sum (data : List Row) :
    ((groupKeys data).map (fun k => totalNotional (groupRows data k))).sum =
      totalNotional data :=
  group_partition_sum (groupKeys data) data (groupKeys_nodup_cover data).1
    (groupKeys_nodup_cover data).2

/-- Membership in a conditional singleton flag list. -/
theorem mem_if_singleton {α : Type} [DecidableEq α] {a s : α} {c : Prop}
    [Decidable c] : (a ∈ (if c then [s] else [])) ↔ c ∧ a = s := by
  split <;> simp_all

/-- The concentration flag appears in the generated flag list exactly when
the concentration-ratio argument passed to the generator exceeds the
configured limit. -/
theorem mem_concentration_flag (cfg : Config) (g : List Row) (cr : ℚ) :
    "HIGH_CONCENTRATION" ∈ generateCounterpartyRiskFlags cfg g cr ↔
      cfg.single_counterparty_limit_pct < cr := by
  unfold generateCounterpartyRiskFlags
  simp [List.mem_append, mem_if_singleton]

/-- Exceeding a larger bound implies exceeding a smaller one, also through
a missing value. -/
theorem ngt_le_mono {c : Option ℚ} {a b : ℚ} (hab : b ≤ a)
    (h : ngt c a = true) : ngt c b = true := by
  cases c with
  | none => simp [ngt] at h
  | some x =>
      simp only [ngt, decide_eq_true_eq] at h ⊢
      linarith

/-- The total the concentration metrics divide by is the portfolio
total. -/
theorem concentration_total_eq (data : List Row) :
    ((sortOrd (fun a b => decide (b.2 ≤ a.2))
        ((groupKeys data).map (fun k => (k, totalNotional (groupRows data k))))).map
      (fun e => e.2)).sum = totalNotional data := by
  have hperm :=
    (sortOrd_perm (fun a b => decide (b.2 ≤ a.2))
      ((groupKeys data).map (fun k => (k, totalNotional (groupRows data k))))).map
      (fun e : String × ℚ => e.2)
  rw [hperm.sum_eq, List.map_map]
  exact groupKeys_sum data

/-- C1, counterexample: a trade whose rating "ZZ" is not in the weight
table does not abort the run — the derivation completes, the credit weight
is the missing value, the other derived columns are produced (the market
score evaluates to 14/125) and the full pipeline still returns a profile
for the trade, contradicting the claimed hard lookup error. -/
theorem unmapped_rating_runs_to_completion :
    cfgA.rating_weights.lookup tradeZZ.counterparty_rating = none ∧
    (deriveRow cfgA tradeZZ).rating_risk_weight = none ∧
    (deriveRow cfgA tradeZZ).market_risk_score = 14/125 ∧
    (deriveRow cfgA tradeZZ).risk_category = "Critical" ∧
    (runPipeline cfgA "t" [tradeZZ]).counterparty_profiles.length = 1 := by
  decide

/-- C1, amended: for a trade whose rating is not a key of the weight
table, the derivation does not raise — `Series.map` yields the missing
value for the rating weight, the missing value propagates through the
credit score, the credit-adjusted exposure and the composite score, and
the risk category falls through every threshold test to "Critical". -/
theorem unmapped_rating_derives_missing_credit_fields (cfg : Config)
    (t : Trade)
    (h : cfg.rating_weights.lookup t.counterparty_rating = none) :
    (deriveRow cfg t).rating_risk_weight = none ∧
    (deriveRow cfg t).credit_risk_score = none ∧
    (deriveRow cfg t).credit_adjusted_exposure = none ∧
    (deriveRow cfg t).composite_risk_score = none ∧
    (deriveRow cfg t).risk_category = "Critical" := by
  simp [deriveRow, ratingRiskWeight, creditRiskScore, creditAdjustedExposure,
        compositeRiskScore, assignRiskCategory, nle, h]

/-- C1, witness: the amended theorem applied to the concrete unmapped
trade. -/
theorem unmapped_rating_derives_missing_credit_fields_witness :
    cfgA.rating_weights.lookup tradeZZ.counterparty_rating = none ∧
    (deriveRow cfgA tradeZZ).composite_risk_score = none :=
  ⟨by decide,
    (unmapped_rating_derives_missing_credit_fields cfgA tradeZZ (by decide)).2.2.2.1⟩

/-- C2: the code's high-risk rating flag is the lexicographic pandas
string comparison, which diverges from the rating-grade enumeration the
specification mandates: with threshold "BB", the flag fires on "BBB"
(lexicographically past "BB") although "BBB" sits strictly before "BB" in
the AAA…D grade order (positions 3 and 4) — "BBB" is the less risky grade,
as the weight table (1 versus 2) also records. -/
theorem high_risk_rating_flag_lexicographic_divergence :
    cfgA.high_risk_rating_threshold = "BB" ∧
    highRiskRatingFlag cfgA { tradeBase with counterparty_rating := "BBB" } = true ∧
    specHighRiskRating "BBB" "BB" = false ∧
    ratingGradeIdx "BBB" = some 3 ∧ ratingGradeIdx "BB" = some 4 ∧
    cfgA.rating_weights.lookup "BBB" = some 1 ∧
    cfgA.rating_weights.lookup "BB" = some 2 := by
  decide

/-- C3, counterexample: in a two-counterparty portfolio split 10/90 with a
25 percent single-counterparty limit, the profile of the 10 percent
counterparty carries the HIGH_CONCENTRATION flag even though its corrected
concentration ratio, 10, does not exceed the limit — the flag decision was
taken on the group-local placeholder ratio of 100, not on the corrected
ratio. -/
theorem high_concentration_flag_ignores_corrected_ratio :
    ((runPipeline cfgA "t" [tradeCpA, tradeCpB]).counterparty_profiles.lookup
        "CpA").map
      (fun p => (p.risk_flags.contains "HIGH_CONCENTRATION",
        p.concentration_ratio_pct)) = some (true, 10) ∧
    cfgA.single_counterparty_limit_pct = 25 := by
  decide

/-- C3, amended: for every counterparty profile the analysis produces, the
HIGH_CONCENTRATION flag is present in its risk-flag list exactly when the
group-local placeholder concentration ratio — group exposure over the
group's own total, 100 for any group with positive exposure — exceeds the
configured single-counterparty limit; the corrected ratio plays no part in
the flag decision. -/
theorem high_concentration_flag_follows_placeholder_ratio (cfg : Config)
    (now : String) (data : List Row) (cp : String) (p : Profile)
    (h : (cp, p) ∈ (analyzeCounterparties cfg now data).counterparty_profiles) :
    ("HIGH_CONCENTRATION" ∈ p.risk_flags ↔
      cfg.single_counterparty_limit_pct <
        placeholderConcentration (groupRows data cp)) := by
  simp only [analyzeCounterparties, List.map_map, List.mem_map,
    Function.comp] at h
  obtain ⟨k, hk, heq⟩ := h
  have hk1 : k = cp := congrArg Prod.fst heq
  have hk2 :
      backFillConcentration (totalNotional data)
        (createCounterpartyProfile cfg k (groupRows data k)) = p :=
    congrArg Prod.snd heq
  subst hk1
  rw [← hk2]
  exact mem_concentration_flag cfg (groupRows data k) _

/-- C3, witness: the amended theorem applied to the concrete 10/90
portfolio profile. -/
theorem high_concentration_flag_follows_placeholder_ratio_witness :
    ("HIGH_CONCENTRATION" ∈ profileCpA.risk_flags ↔
      cfgA.single_counterparty_limit_pct <
        placeholderConcentration (groupRows rowsAB "CpA")) :=
  high_concentration_flag_follows_placeholder_ratio cfgA "t" rowsAB "CpA"
    profileCpA (by decide)

set_option maxRecDepth 4000 in
/-- C4: a counterparty profile is classified high-risk exactly when at
least 3 of the 8 boolean criteria hold — the integer vote
`sum(risk_criteria) >= 3` of the code coincides with the cardinality of
the set of satisfied criteria being at least 3; in particular a profile
satisfying exactly 2 criteria is not classified high-risk and one
satisfying exactly 3 is. -/
theorem high_risk_vote_iff_three_of_eight (cfg : Config) (p : Profile) :
    isHighRiskCounterparty cfg p = true ↔
      3 ≤ (Finset.univ.filter
        (fun i : Fin 8 => highRiskCriteria cfg p i = true)).card := by
  have key : ∀ v : Fin 8 → Bool,
      (decide (3 ≤ List.count true [v 0, v 1, v 2, v 3, v 4, v 5, v 6, v 7]) = true ↔
        3 ≤ (Finset.univ.filter (fun i => v i = true)).card) := by decide
  exact key (highRiskCriteria cfg p)

/-- C5: with thresholds low < medium < high, the category of a present
composite score is assigned by walking the thresholds in ascending order,
first satisfied `score ≤ threshold` winning, everything above the highest
threshold labelled Critical; consequently the category's severity is a
non-decreasing step function of the score. -/
theorem risk_category_threshold_walk_monotone (cfg : Config)
    (h1 : cfg.low_risk < cfg.medium_risk)
    (h2 : cfg.medium_risk < cfg.high_risk) :
    (∀ s : ℚ,
      (assignRiskCategory cfg (some s) = "Low" ↔ s ≤ cfg.low_risk) ∧
      (assignRiskCategory cfg (some s) = "Medium" ↔
        cfg.low_risk < s ∧ s ≤ cfg.medium_risk) ∧
      (assignRiskCategory cfg (some s) = "High" ↔
        cfg.medium_risk < s ∧ s ≤ cfg.high_risk) ∧
      (assignRiskCategory cfg (some s) = "Critical" ↔ cfg.high_risk < s)) ∧
    (∀ s1 s2 : ℚ, s1 ≤ s2 →
      riskSeverity (assignRiskCategory cfg (some s1)) ≤
        riskSeverity (assignRiskCategory cfg (some s2))) := by
  constructor
  · intro s
    simp only [assignRiskCategory, nle, decide_eq_true_eq]
    refine ⟨?_, ?_, ?_, ?_⟩ <;>
      (split_ifs with h3 h4 h5 <;> simp_all <;> intros <;> linarith)
  · intro s1 s2 hle
    simp only [assignRiskCategory, nle, decide_eq_true_eq]
    split_ifs <;> simp [riskSeverity] <;> linarith

/-- C5, witness: the theorem applied to the concrete configuration with
thresholds 0.3 < 0.5 < 0.7 and the score pair 1/4 ≤ 3/4. -/
theorem risk_category_threshold_walk_monotone_witness :
    riskSeverity (assignRiskCategory cfgA (some (1/4))) ≤
      riskSeverity (assignRiskCategory cfgA (some (3/4))) :=
  (risk_category_threshold_walk_monotone cfgA (by decide) (by decide)).2
    (1/4) (3/4) (by decide)

/-- C6: when the portfolio total notional is zero, nothing divides by it:
every finalized profile's corrected concentration ratio is 0, the HHI,
top-5 concentration and largest-counterparty share are all 0, and the
high- and critical-risk exposure percentages are 0. -/
theorem zero_portfolio_total_yields_zero_ratios (cfg : Config)
    (now : String) (ts : List Trade)
    (h : (ts.map (fun t => t.notional_musd)).sum = 0) :
    ((runPipeline cfg now ts).counterparty_profiles.all
        (fun kp => kp.2.concentration_ratio_pct == 0)) = true ∧
    (runPipeline cfg now ts).portfolio_aggregates.counterparty_concentration.herfindahl_hirschman_index = 0 ∧
    (runPipeline cfg now ts).portfolio_aggregates.counterparty_concentration.top_5_concentration_pct = 0 ∧
    (runPipeline cfg now ts).portfolio_aggregates.counterparty_concentration.largest_counterparty_pct = 0 ∧
    (runPipeline cfg now ts).portfolio_aggregates.high_risk_exposure_pct = 0 ∧
    (runPipeline cfg now ts).portfolio_aggregates.critical_risk_exposure_pct = 0 := by
  have htot : totalNotional (deriveRiskFields cfg ts) = 0 := by
    unfold totalNotional deriveRiskFields
    rw [List.map_map]
    exact h
  have hconc := concentration_total_eq (deriveRiskFields cfg ts)
  rw [htot] at hconc
  refine ⟨?_, ?_, ?_, ?_, ?_, ?_⟩ <;>
    simp [runPipeline, analyzeCounterparties, backFillConcentration,
      calculatePortfolioAggregates, calculateConcentrationMetrics,
      List.all_map, htot, hconc, Function.comp]

/-- C6, witness: the theorem applied to the concrete one-trade portfolio
of zero notional. -/
theorem zero_portfolio_total_yields_zero_ratios_witness :
    ((runPipeline cfgA "t" [tradeZero]).counterparty_profiles.all
        (fun kp => kp.2.concentration_ratio_pct == 0)) = true ∧
    (runPipeline cfgA "t" [tradeZero]).portfolio_aggregates.counterparty_concentration.herfindahl_hirschman_index = 0 ∧
    (runPipeline cfgA "t" [tradeZero]).portfolio_aggregates.counterparty_concentration.top_5_concentration_pct = 0 ∧
    (runPipeline cfgA "t" [tradeZero]).portfolio_aggregates.counterparty_concentration.largest_counterparty_pct = 0 ∧
    (runPipeline cfgA "t" [tradeZero]).portfolio_aggregates.high_risk_exposure_pct = 0 ∧
    (runPipeline cfgA "t" [tradeZero]).portfolio_aggregates.critical_risk_exposure_pct = 0 :=
  zero_portfolio_total_yields_zero_ratios cfgA "t" [tradeZero] (by decide)

/-- C7: the pipeline is a deterministic function of the input trades and
the configuration — two runs on identical input and configuration,
differing only in the wall-clock timestamp the summary records, produce
identical counterparty profiles, portfolio aggregates, high-risk list and
flag set. -/
theorem pipeline_rerun_deterministic (cfg : Config) (ts : List Trade)
    (t1 t2 : String) :
    (runPipeline cfg t1 ts).counterparty_profiles =
        (runPipeline cfg t2 ts).counterparty_profiles ∧
      (runPipeline cfg t1 ts).portfolio_aggregates =
        (runPipeline cfg t2 ts).portfolio_aggregates ∧
      (runPipeline cfg t1 ts).high_risk_counterparties =
        (runPipeline cfg t2 ts).high_risk_counterparties ∧
      (runPipeline cfg t1 ts).risk_flags = (runPipeline cfg t2 ts).risk_flags :=
  ⟨rfl, rfl, rfl, rfl⟩

/-- C8: the market risk score is the stated weighted sum of the collateral
quality complement and the haircut and specialness ratios, and none of the
ratios is clamped — at the concrete trade whose haircut 200 exceeds the
configured maximum 10, the haircut ratio is above 1 and so is the market
score. -/
theorem market_risk_formula_unclamped :
    (∀ (cfg : Config) (t : Trade),
      marketRiskScore cfg t =
        (4/10) * (1 - collateralQualityScore t) +
        (3/10) * (t.haircut_pct / cfg.max_haircut_pct) +
        (3/10) * (t.specialness_bp / cfg.max_specialness_bp)) ∧
    tradeHaircut.haircut_pct > cfgA.max_haircut_pct ∧
    haircutRiskScore cfgA tradeHaircut > 1 ∧
    marketRiskScore cfgA tradeHaircut > 1 := by
  refine ⟨?_, by decide, by decide, by decide⟩
  intro cfg t
  unfold marketRiskScore haircutRiskScore specialnessRiskScore
  ring

/-- C9: the margin-call risk score clamps to 1 only after summing the two
margin halves, the encumbrance score is the clamped encumbrance ratio, and
the liquidity score is their 0.6/0.4 weighted sum; at the concrete trade
with both halves equal to 3, the code's post-sum clamp gives 1 while
clamping each half separately would give 2. -/
theorem liquidity_risk_formulas_clamp_after_sum :
    (∀ (cfg : Config) (t : Trade),
      marginCallRiskScore cfg t =
        min ((5/10) * (t.margin_call_mild_musd / cfg.max_mild_margin_call_musd) +
             (5/10) * (t.margin_call_severe_musd / cfg.max_severe_margin_call_musd)) 1 ∧
      encumbranceRiskScore cfg t =
        min (t.encumbrance_days / cfg.max_encumbrance_days) 1 ∧
      liquidityRiskScore cfg t =
        (6/10) * encumbranceRiskScore cfg t + (4/10) * marginCallRiskScore cfg t) ∧
    marginCallRiskScore cfgA tradeMargin = 1 ∧
    min ((5/10) * (tradeMargin.margin_call_mild_musd / cfgA.max_mild_margin_call_musd)) 1 +
        min ((5/10) * (tradeMargin.margin_call_severe_musd / cfgA.max_severe_margin_call_musd)) 1 = 2 := by
  refine ⟨?_, by decide, by decide⟩
  intro cfg t
  refine ⟨?_, rfl, ?_⟩
  · unfold marginCallRiskScore clipUpper
    congr 1
    ring
  · unfold liquidityRiskScore
    ring

/-- C10: in every counterparty profile the analysis produces, the count of
critical-risk trades (composite above 0.9) never exceeds the count of
high-risk trades (composite above 0.7), which never exceeds the group's
trade count. -/
theorem profile_risk_trade_counts_monotone (cfg : Config) (now : String)
    (data : List Row) :
    ((analyzeCounterparties cfg now data).counterparty_profiles.all
      (fun kp => decide (kp.2.critical_risk_trades ≤ kp.2.high_risk_trades) &&
                 decide (kp.2.high_risk_trades ≤ kp.2.trade_count))) = true := by
  rw [List.all_eq_true]
  intro kp hkp
  simp only [analyzeCounterparties, List.map_map, List.mem_map,
    Function.comp] at hkp
  obtain ⟨k, hk, heq⟩ := hkp
  rw [← heq]
  simp only [Bool.and_eq_true, decide_eq_true_eq]
  constructor
  · exact List.countP_mono_left (fun r _ hr => ngt_le_mono (by norm_num) hr)
  · exact List.countP_le_length _
